import Mathlib

/-!
Verification of the connection manager in `src/database/mongoose.ts`.

The module keeps a process-wide cache `global.mongooseCache = { conn, promise }`
plus a module-level boolean `listenersSet`, and exposes `connectToDatabase`,
`isConnected` and `disconnectFromDatabase`.  We embed that state shallowly:
handles and in-flight attempts are identified by natural numbers, promises by
attempt identifiers, and we add instrumentation counters (how many times
`mongoose.connect` was invoked, how many times `mongoose.connection.close` was
invoked, how many times the listener block was attached) so that the spec's
observational properties ("no new underlying connect call", "no close call")
become statements about the embedded state.

`connectToDatabase` is an async function whose body is synchronous up to the
single `await cached.promise` (JavaScript async functions run atomically to
their first suspension point).  We therefore split it into
`connectToDatabaseEntry` (everything before the await, one atomic step) and
`connectToDatabaseResume` (what a suspended caller does once the awaited
attempt settles, again one atomic step).
-/

/-- An error value thrown by the underlying driver: we only ever observe its
`message` (the source reads `error.message`). -/
structure Err where
  message : String
deriving DecidableEq, Repr

/-- Errors thrown by the manager.  The source throws plain `Error` objects from
two distinct sites; the spec names them `ConfigurationError` (missing
`MONGODB_URI`, line 73) and `ConnectionError` (failed attempt, line 102).  A
`ConnectionError` carries an optional cause: the source constructs
`new Error(...)` with no second argument, so no cause object is attached. -/
inductive DbError where
  | configurationError (message : String)
  | connectionError (message : String) (cause : Option Err)
deriving DecidableEq, Repr

/-- The cause attached to an error, when there is one. -/
def DbError.causeOf : DbError → Option Err
  | .configurationError _ => none
  | .connectionError _ c => c

/-- The mutable state of the module: `conn` and `promise` are the two fields of
`global.mongooseCache` (a live handle and a pending attempt, by identifier);
`listenersSet` is the module-level guard (line 29).  The remaining fields are
instrumentation: `connectCalls` counts invocations of `mongoose.connect`
(line 88), `closeCalls` counts invocations of `mongoose.connection.close`
(line 116), `listenerRegs` counts executions of the listener/shutdown-hook
attachment block (lines 34-65), and `nextAttemptId` supplies fresh attempt
identifiers. -/
structure MongooseCache where
  conn : Option Nat
  promise : Option Nat
  listenersSet : Bool
  connectCalls : Nat
  closeCalls : Nat
  listenerRegs : Nat
  nextAttemptId : Nat
deriving DecidableEq, Repr

/-- The state installed at module load: `{ conn: null, promise: null }`
(line 16) and `listenersSet = false` (line 29). -/
def initialCache : MongooseCache :=
  { conn := none, promise := none, listenersSet := false,
    connectCalls := 0, closeCalls := 0, listenerRegs := 0, nextAttemptId := 0 }

/-- Truthiness of `MONGODB_URI` as tested by `if (!MONGODB_URI)` (line 72):
`undefined` and the empty string are both falsy. -/
def uriPresent : Option String → Bool
  | none => false
  | some s => s != ""

/-- Lines 31-68: attach the lifecycle listeners and the SIGINT/SIGTERM
shutdown hooks unless `listenersSet` is already true, then set the flag. -/
def setupConnectionListeners (s : MongooseCache) : MongooseCache :=
  if s.listenersSet then s
  else { s with listenerRegs := s.listenerRegs + 1, listenersSet := true }

/-- What the synchronous prefix of `connectToDatabase` does from a caller's
point of view: it either throws (line 73), returns the cached handle
(line 80), or reaches `await cached.promise` (line 92) suspended on a
particular attempt. -/
inductive EntryResult where
  | threw (e : DbError)
  | returned (h : Nat)
  | awaiting (a : Nat)
deriving DecidableEq, Repr

/-- Lines 70-92 of `connectToDatabase`, the atomic synchronous prefix:
validate `MONGODB_URI`; return `cached.conn` if populated; run
`setupConnectionListeners`; if `cached.promise` is empty, start
`mongoose.connect` (a fresh attempt, counted) and store it; finally suspend
on `cached.promise`. -/
def connectToDatabaseEntry (uri : Option String) (s : MongooseCache) :
    EntryResult × MongooseCache :=
  if uriPresent uri = false then
    (.threw (.configurationError
      "MONGODB_URI is not defined. Please set it in your .env file"), s)
  else
    match s.conn with
    | some h => (.returned h, s)
    | none =>
      match (setupConnectionListeners s).promise with
      | some a => (.awaiting a, setupConnectionListeners s)
      | none =>
        (.awaiting (setupConnectionListeners s).nextAttemptId,
         { setupConnectionListeners s with
             promise := some (setupConnectionListeners s).nextAttemptId,
             connectCalls := (setupConnectionListeners s).connectCalls + 1,
             nextAttemptId := (setupConnectionListeners s).nextAttemptId + 1 })

/-- How the attempt a caller awaits settles: the driver either resolves with a
handle or rejects with an error. -/
inductive Outcome where
  | success (h : Nat)
  | failure (e : Err)
deriving DecidableEq, Repr

/-- Line 102-104: the error thrown on a failed attempt.  The message embeds
the cause's message text and the hint; the `Error` is constructed with no
cause argument, so the original cause object is not attached. -/
def enrichError (e : Err) : DbError :=
  .connectionError
    ("Failed to connect to MongoDB: " ++ e.message ++
      ". Please check your MONGODB_URI and network connection.")
    none

/-- Lines 91-105, what a caller suspended at `await cached.promise` does when
the attempt settles: on success `cached.conn = result; return cached.conn`
(the promise is left in place); on failure `cached.promise = null` and a new
enriched `Error` is thrown. -/
def connectToDatabaseResume (out : Outcome) (s : MongooseCache) :
    Except DbError Nat × MongooseCache :=
  match out with
  | .success h => (.ok h, { s with conn := some h })
  | .failure e => (.error (enrichError e), { s with promise := none })

/-- Lines 109-111: `mongoose.connection.readyState === 1`. -/
def isConnected (readyState : Nat) : Bool :=
  readyState == 1

/-- Lines 114-120: if `cached.conn` is populated, close the underlying
connection and clear both fields; otherwise do nothing. -/
def disconnectFromDatabase (s : MongooseCache) : MongooseCache :=
  match s.conn with
  | some _ =>
    { s with conn := none, promise := none, closeCalls := s.closeCalls + 1 }
  | none => s

/-- Run `n` callers through the synchronous prefix of `connectToDatabase`,
one after another, none of them having resumed yet; collect each caller's
entry result. -/
def runEntries (uri : Option String) : Nat → MongooseCache →
    List EntryResult × MongooseCache
  | 0, s => ([], s)
  | n + 1, s =>
    ((connectToDatabaseEntry uri s).1 ::
       (runEntries uri n (connectToDatabaseEntry uri s).2).1,
     (runEntries uri n (connectToDatabaseEntry uri s).2).2)

/-- One atomic step of the manager, for reasoning about arbitrary interleaved
call sequences: a caller runs the synchronous prefix of `connectToDatabase`,
a suspended caller resumes with its attempt's outcome, or a caller runs
`disconnectFromDatabase`. -/
inductive Op where
  | entry
  | resume (out : Outcome)
  | disconnect
deriving DecidableEq, Repr

/-- Apply one atomic step to the cache state. -/
def step (uri : Option String) (s : MongooseCache) : Op → MongooseCache
  | .entry => (connectToDatabaseEntry uri s).2
  | .resume out => (connectToDatabaseResume out s).2
  | .disconnect => disconnectFromDatabase s

/-- Apply a sequence of atomic steps to the cache state. -/
def run (uri : Option String) : List Op → MongooseCache → MongooseCache
  | [], s => s
  | op :: ops, s => run uri ops (step uri s op)

/-- How the race inside `cleanup` (lines 49-54) settles: the close resolves
first, the 1000 ms timer rejects first, or the close rejects first. -/
inductive RaceOutcome where
  | closeCompleted
  | timeoutFired
  | closeThrew (e : Err)
deriving DecidableEq, Repr

/-- The grace timeout of the shutdown race (line 52). -/
def closeTimeoutMs : Nat := 1000

/-- Lines 47-62: the exit status `cleanup` passes to `process.exit`.  A win by
the close lands in the `try` branch and exits 0; a timer rejection or a close
rejection lands in the `catch` and exits 1.  The function is total: every
settlement of the race leads to an exit. -/
def cleanupExitCode : RaceOutcome → Nat
  | .closeCompleted => 0
  | .timeoutFired => 1
  | .closeThrew _ => 1

/-!
Helper lemmas: `setupConnectionListeners` touches only the listener fields,
and characterisations of the branches of `connectToDatabaseEntry`.
-/

@[simp] theorem setup_conn (s : MongooseCache) :
    (setupConnectionListeners s).conn = s.conn := by
  unfold setupConnectionListeners; split <;> rfl

@[simp] theorem setup_promise (s : MongooseCache) :
    (setupConnectionListeners s).promise = s.promise := by
  unfold setupConnectionListeners; split <;> rfl

@[simp] theorem setup_connectCalls (s : MongooseCache) :
    (setupConnectionListeners s).connectCalls = s.connectCalls := by
  unfold setupConnectionListeners; split <;> rfl

@[simp] theorem setup_closeCalls (s : MongooseCache) :
    (setupConnectionListeners s).closeCalls = s.closeCalls := by
  unfold setupConnectionListeners; split <;> rfl

@[simp] theorem setup_nextAttemptId (s : MongooseCache) :
    (setupConnectionListeners s).nextAttemptId = s.nextAttemptId := by
  unfold setupConnectionListeners; split <;> rfl

theorem setup_listenersSet (s : MongooseCache) :
    (setupConnectionListeners s).listenersSet = true := by
  unfold setupConnectionListeners
  split
  · assumption
  · rfl

/-- With a truthy URI, no cached handle and a pending attempt, the entry step
suspends on that attempt and only the listener fields can change. -/
theorem entry_pending (uri : Option String) (s : MongooseCache) (a : Nat)
    (hu : uriPresent uri = true) (hc : s.conn = none)
    (hp : s.promise = some a) :
    connectToDatabaseEntry uri s =
      (EntryResult.awaiting a, setupConnectionListeners s) := by
  unfold connectToDatabaseEntry
  rw [hu]
  simp [hc, hp]

/-- With a truthy URI, no cached handle and no pending attempt, the entry step
starts a fresh underlying connect call, stores it, and suspends on it. -/
theorem entry_fresh (uri : Option String) (s : MongooseCache)
    (hu : uriPresent uri = true) (hc : s.conn = none)
    (hp : s.promise = none) :
    connectToDatabaseEntry uri s =
      (EntryResult.awaiting s.nextAttemptId,
       { setupConnectionListeners s with
           promise := some s.nextAttemptId,
           connectCalls := s.connectCalls + 1,
           nextAttemptId := s.nextAttemptId + 1 }) := by
  unfold connectToDatabaseEntry
  rw [hu]
  simp [hc, hp]

/-- C2: once `cached.conn` is populated, every `connectToDatabase` call
returns that exact handle with the whole cache state unchanged (so no new
underlying connect call is issued), and no entry or resume step ever empties
`conn` — only `disconnectFromDatabase` tears it down. -/
theorem cached_connection_reused (uri : Option String) (s : MongooseCache)
    (h : Nat) (hu : uriPresent uri = true) (hc : s.conn = some h) :
    connectToDatabaseEntry uri s = (EntryResult.returned h, s) ∧
    (∀ out, (connectToDatabaseResume out s).2.conn ≠ none) := by
  constructor
  · unfold connectToDatabaseEntry
    rw [hu]
    simp [hc]
  · intro out
    cases out <;> simp [connectToDatabaseResume, hc]

theorem cached_connection_reused_witness :
    uriPresent (some "mongodb://localhost/db") = true ∧
    (connectToDatabaseEntry (some "mongodb://localhost/db")
        { initialCache with conn := some 5 } =
      (EntryResult.returned 5, { initialCache with conn := some 5 }) ∧
     ∀ out, (connectToDatabaseResume out
        { initialCache with conn := some 5 }).2.conn ≠ none) :=
  ⟨by decide,
   cached_connection_reused (some "mongodb://localhost/db")
     { initialCache with conn := some 5 } 5 (by decide) rfl⟩

/-- C5: with `MONGODB_URI` absent or empty, `connectToDatabase` throws the
configuration error immediately and the state is returned untouched — in
particular no underlying connect call is issued and no listener is
attached. -/
theorem missing_uri_rejected (uri : Option String) (s : MongooseCache)
    (hu : uriPresent uri = false) :
    connectToDatabaseEntry uri s =
      (EntryResult.threw (DbError.configurationError
        "MONGODB_URI is not defined. Please set it in your .env file"), s) := by
  unfold connectToDatabaseEntry
  rw [hu]
  rfl

theorem missing_uri_rejected_witness :
    uriPresent none = false ∧ uriPresent (some "") = false ∧
    connectToDatabaseEntry none initialCache =
      (EntryResult.threw (DbError.configurationError
        "MONGODB_URI is not defined. Please set it in your .env file"),
       initialCache) ∧
    connectToDatabaseEntry (some "") initialCache =
      (EntryResult.threw (DbError.configurationError
        "MONGODB_URI is not defined. Please set it in your .env file"),
       initialCache) :=
  ⟨rfl, by decide, missing_uri_rejected none initialCache rfl,
   missing_uri_rejected (some "") initialCache (by decide)⟩

/-- C4 as stated is false: a successful resume stores the handle but does NOT
clear `cached.promise` (the source only nulls it in the catch branch).  Here
the pending attempt `3` is still in place after the call completes. -/
theorem success_keeps_pending_attempt :
    (connectToDatabaseResume (Outcome.success 7)
        { initialCache with promise := some 3 }).2.promise = some 3 ∧
    (connectToDatabaseResume (Outcome.success 7)
        { initialCache with promise := some 3 }).2.promise ≠ none :=
  ⟨rfl, by decide⟩

/-- C4 amended: on a successful resume the manager stores the result into
`cached.conn` and returns the handle, while `cached.promise` is left exactly
as it was — holding the (now resolved) attempt — rather than being cleared. -/
theorem success_stores_and_returns (h : Nat) (s : MongooseCache) :
    connectToDatabaseResume (Outcome.success h) s =
      (Except.ok h, { s with conn := some h }) ∧
    (connectToDatabaseResume (Outcome.success h) s).2.promise = s.promise :=
  ⟨rfl, rfl⟩

/-- C7 as stated is false: the surfaced error is built by `new Error(...)`
from the cause's message text only; the original cause object is not attached
(`causeOf` is `none`, not the original `Err`). -/
theorem connection_error_cause_dropped :
    (connectToDatabaseResume
        (Outcome.failure (Err.mk "getaddrinfo ENOTFOUND db"))
        initialCache).1 =
      Except.error (DbError.connectionError
        "Failed to connect to MongoDB: getaddrinfo ENOTFOUND db. Please check your MONGODB_URI and network connection."
        none) ∧
    (DbError.connectionError
        "Failed to connect to MongoDB: getaddrinfo ENOTFOUND db. Please check your MONGODB_URI and network connection."
        none).causeOf ≠ some (Err.mk "getaddrinfo ENOTFOUND db") := by
  constructor
  · rfl
  · decide

/-- C7 amended: every failed attempt surfaces a `ConnectionError` whose
message embeds the underlying failure's message together with the hint to
check `MONGODB_URI` and the network, but which carries no cause object: only
the cause's message text is preserved. -/
theorem connection_error_enriched (e : Err) (s : MongooseCache) :
    (connectToDatabaseResume (Outcome.failure e) s).1 =
      Except.error (DbError.connectionError
        ("Failed to connect to MongoDB: " ++ e.message ++
          ". Please check your MONGODB_URI and network connection.")
        none) :=
  rfl

/-- C9: the shutdown routine races `close()` against the fixed 1000 ms
timeout; a win by the close exits the process with status 0, a timer firing
or a throwing close exits with status 1, and every possible settlement of the
race leads to one of these two exits — the routine never hangs. -/
theorem cleanup_bounded_exit :
    closeTimeoutMs = 1000 ∧
    cleanupExitCode RaceOutcome.closeCompleted = 0 ∧
    cleanupExitCode RaceOutcome.timeoutFired = 1 ∧
    (∀ e, cleanupExitCode (RaceOutcome.closeThrew e) = 1) ∧
    (∀ r, cleanupExitCode r = 0 ∨ cleanupExitCode r = 1) := by
  refine ⟨rfl, rfl, rfl, fun e => rfl, fun r => ?_⟩
  cases r
  · left; rfl
  · right; rfl
  · right; rfl

/-- C10: with no live connection but a pending attempt, `disconnect` is a
strict no-op (no close call, state bit-for-bit unchanged), and the next
`connectToDatabase` call suspends on that same old attempt — it does not
start a fresh handshake. -/
theorem disconnect_leaves_pending (uri : Option String) (s : MongooseCache)
    (a : Nat) (hu : uriPresent uri = true) (hc : s.conn = none)
    (hp : s.promise = some a) :
    disconnectFromDatabase s = s ∧
    (connectToDatabaseEntry uri s).1 = EntryResult.awaiting a ∧
    (connectToDatabaseEntry uri s).2.promise = some a ∧
    (connectToDatabaseEntry uri s).2.connectCalls = s.connectCalls := by
  refine ⟨?_, ?_, ?_, ?_⟩
  · simp [disconnectFromDatabase, hc]
  · rw [entry_pending uri s a hu hc hp]
  · rw [entry_pending uri s a hu hc hp]
    simp [hp]
  · rw [entry_pending uri s a hu hc hp]
    simp

theorem disconnect_leaves_pending_witness :
    uriPresent (some "mongodb://localhost/db") = true ∧
    (disconnectFromDatabase { initialCache with promise := some 0 } =
      { initialCache with promise := some 0 } ∧
     (connectToDatabaseEntry (some "mongodb://localhost/db")
        { initialCache with promise := some 0 }).1 = EntryResult.awaiting 0 ∧
     (connectToDatabaseEntry (some "mongodb://localhost/db")
        { initialCache with promise := some 0 }).2.promise = some 0 ∧
     (connectToDatabaseEntry (some "mongodb://localhost/db")
        { initialCache with promise := some 0 }).2.connectCalls =
       ({ initialCache with promise := some 0 } : MongooseCache).connectCalls) :=
  ⟨by decide,
   disconnect_leaves_pending (some "mongodb://localhost/db")
     { initialCache with promise := some 0 } 0 (by decide) rfl rfl⟩

/-- C3: a failed resume surfaces the enriched error and clears
`cached.promise`, so with no live handle the next `connectToDatabase` call
starts a fresh underlying connect attempt (one more connect call, suspended
on a new attempt) instead of awaiting the rejected one. -/
theorem retry_after_failure (uri : Option String) (e : Err)
    (s : MongooseCache) (hu : uriPresent uri = true) (hc : s.conn = none) :
    (connectToDatabaseResume (Outcome.failure e) s).1 =
      Except.error (enrichError e) ∧
    (connectToDatabaseResume (Outcome.failure e) s).2.promise = none ∧
    (connectToDatabaseEntry uri
        (connectToDatabaseResume (Outcome.failure e) s).2).1 =
      EntryResult.awaiting s.nextAttemptId ∧
    (connectToDatabaseEntry uri
        (connectToDatabaseResume (Outcome.failure e) s).2).2.connectCalls =
      s.connectCalls + 1 := by
  have h1 : (connectToDatabaseResume (Outcome.failure e) s).2 =
      { s with promise := none } := rfl
  refine ⟨rfl, rfl, ?_, ?_⟩
  · rw [h1, entry_fresh uri { s with promise := none } hu hc rfl]
  · rw [h1, entry_fresh uri { s with promise := none } hu hc rfl]

theorem retry_after_failure_witness :
    uriPresent (some "mongodb://localhost/db") = true ∧
    ((connectToDatabaseResume (Outcome.failure (Err.mk "boom"))
        { initialCache with promise := some 0 }).1 =
      Except.error (enrichError (Err.mk "boom")) ∧
     (connectToDatabaseResume (Outcome.failure (Err.mk "boom"))
        { initialCache with promise := some 0 }).2.promise = none ∧
     (connectToDatabaseEntry (some "mongodb://localhost/db")
        (connectToDatabaseResume (Outcome.failure (Err.mk "boom"))
          { initialCache with promise := some 0 }).2).1 =
      EntryResult.awaiting
        ({ initialCache with promise := some 0 } : MongooseCache).nextAttemptId ∧
     (connectToDatabaseEntry (some "mongodb://localhost/db")
        (connectToDatabaseResume (Outcome.failure (Err.mk "boom"))
          { initialCache with promise := some 0 }).2).2.connectCalls =
      ({ initialCache with promise := some 0 } : MongooseCache).connectCalls + 1) :=
  ⟨by decide,
   retry_after_failure (some "mongodb://localhost/db") (Err.mk "boom")
     { initialCache with promise := some 0 } (by decide) rfl⟩

/-- C6: `disconnectFromDatabase` is a no-op when no live connection exists;
with a live connection it issues one close call and clears both `conn` and
`promise`, after which the next `connectToDatabase` call performs a full
fresh handshake (a new underlying connect call, suspended on a new
attempt). -/
theorem disconnect_resets_state (uri : Option String) (s : MongooseCache)
    (h : Nat) (hu : uriPresent uri = true) :
    (s.conn = none → disconnectFromDatabase s = s) ∧
    (s.conn = some h →
      (disconnectFromDatabase s).conn = none ∧
      (disconnectFromDatabase s).promise = none ∧
      (disconnectFromDatabase s).closeCalls = s.closeCalls + 1 ∧
      (connectToDatabaseEntry uri (disconnectFromDatabase s)).1 =
        EntryResult.awaiting s.nextAttemptId ∧
      (connectToDatabaseEntry uri (disconnectFromDatabase s)).2.connectCalls =
        s.connectCalls + 1) := by
  constructor
  · intro hc
    simp [disconnectFromDatabase, hc]
  · intro hc
    have hd : disconnectFromDatabase s =
        { s with conn := none, promise := none,
                 closeCalls := s.closeCalls + 1 } := by
      simp [disconnectFromDatabase, hc]
    refine ⟨by rw [hd], by rw [hd], by rw [hd], ?_, ?_⟩
    · rw [hd, entry_fresh uri _ hu rfl rfl]
    · rw [hd, entry_fresh uri _ hu rfl rfl]

theorem disconnect_resets_state_witness :
    uriPresent (some "mongodb://localhost/db") = true ∧
    ((({ initialCache with conn := some 5, promise := some 2, connectCalls := 1, nextAttemptId := 3 } : MongooseCache).conn = none →
       disconnectFromDatabase { initialCache with conn := some 5, promise := some 2, connectCalls := 1, nextAttemptId := 3 } = { initialCache with conn := some 5, promise := some 2, connectCalls := 1, nextAttemptId := 3 }) ∧
     (({ initialCache with conn := some 5, promise := some 2, connectCalls := 1, nextAttemptId := 3 } : MongooseCache).conn = some 5 →
       (disconnectFromDatabase { initialCache with conn := some 5, promise := some 2, connectCalls := 1, nextAttemptId := 3 }).conn = none ∧
       (disconnectFromDatabase { initialCache with conn := some 5, promise := some 2, connectCalls := 1, nextAttemptId := 3 }).promise = none ∧
       (disconnectFromDatabase { initialCache with conn := some 5, promise := some 2, connectCalls := 1, nextAttemptId := 3 }).closeCalls = ({ initialCache with conn := some 5, promise := some 2, connectCalls := 1, nextAttemptId := 3 } : MongooseCache).closeCalls + 1 ∧
       (connectToDatabaseEntry (some "mongodb://localhost/db") (disconnectFromDatabase { initialCache with conn := some 5, promise := some 2, connectCalls := 1, nextAttemptId := 3 })).1 = EntryResult.awaiting ({ initialCache with conn := some 5, promise := some 2, connectCalls := 1, nextAttemptId := 3 } : MongooseCache).nextAttemptId ∧
       (connectToDatabaseEntry (some "mongodb://localhost/db") (disconnectFromDatabase { initialCache with conn := some 5, promise := some 2, connectCalls := 1, nextAttemptId := 3 })).2.connectCalls = ({ initialCache with conn := some 5, promise := some 2, connectCalls := 1, nextAttemptId := 3 } : MongooseCache).connectCalls + 1)) :=
  ⟨by decide,
   disconnect_resets_state (some "mongodb://localhost/db") { initialCache with conn := some 5, promise := some 2, connectCalls := 1, nextAttemptId := 3 } 5 (by decide)⟩

/-- While a pending attempt `a` is stored and no handle is cached, every
further entry step suspends on `a` and changes neither the cache fields nor
the connect-call count. -/
theorem runEntries_pending (uri : Option String) (a : Nat) :
    ∀ (n : Nat) (s : MongooseCache), uriPresent uri = true →
      s.conn = none → s.promise = some a →
      (∀ r ∈ (runEntries uri n s).1, r = EntryResult.awaiting a) ∧
      (runEntries uri n s).2.conn = none ∧
      (runEntries uri n s).2.promise = some a ∧
      (runEntries uri n s).2.connectCalls = s.connectCalls := by
  intro n
  induction n with
  | zero =>
    intro s hu hc hp
    refine ⟨?_, hc, hp, rfl⟩
    intro r hr
    cases hr
  | succ n ih =>
    intro s hu hc hp
    have he := entry_pending uri s a hu hc hp
    have h1 : (connectToDatabaseEntry uri s).1 = EntryResult.awaiting a := by
      rw [he]
    have h2 : (connectToDatabaseEntry uri s).2 = setupConnectionListeners s := by
      rw [he]
    have hsc : (setupConnectionListeners s).conn = none := by simp [hc]
    have hsp : (setupConnectionListeners s).promise = some a := by simp [hp]
    obtain ⟨ha, hb, hp2, hd⟩ := ih (setupConnectionListeners s) hu hsc hsp
    refine ⟨?_, ?_, ?_, ?_⟩
    · intro r hr
      simp only [runEntries] at hr
      rcases List.mem_cons.mp hr with h | h
      · rw [h, h1]
      · rw [h2] at h
        exact ha r h
    · show (runEntries uri n (connectToDatabaseEntry uri s).2).2.conn = none
      rw [h2]; exact hb
    · show (runEntries uri n (connectToDatabaseEntry uri s).2).2.promise = some a
      rw [h2]; exact hp2
    · show (runEntries uri n (connectToDatabaseEntry uri s).2).2.connectCalls
        = s.connectCalls
      rw [h2, hd]; simp

/-- C1: from a state with no cached handle and no pending attempt, `n ≥ 2`
callers all entering `connectToDatabase` before any resolution issue exactly
one underlying connect call; every caller suspends on that same fresh
attempt, and all callers resuming with the attempt's one outcome obtain the
same result (the same handle, or the same failure). -/
theorem single_inflight_attempt (uri : Option String) (s : MongooseCache)
    (n : Nat) (hu : uriPresent uri = true) (hc : s.conn = none)
    (hp : s.promise = none) (hn : 2 ≤ n) :
    (runEntries uri n s).2.connectCalls = s.connectCalls + 1 ∧
    (∀ r ∈ (runEntries uri n s).1, r = EntryResult.awaiting s.nextAttemptId) ∧
    (∀ out t1 t2, (connectToDatabaseResume out t1).1 =
      (connectToDatabaseResume out t2).1) := by
  obtain ⟨m, rfl⟩ : ∃ m, n = m + 1 := by
    cases n with
    | zero => omega
    | succ m => exact ⟨m, rfl⟩
  have he := entry_fresh uri s hu hc hp
  have h1 : (connectToDatabaseEntry uri s).1 =
      EntryResult.awaiting s.nextAttemptId := by rw [he]
  have h2 : (connectToDatabaseEntry uri s).2 =
      { setupConnectionListeners s with
          promise := some s.nextAttemptId,
          connectCalls := s.connectCalls + 1,
          nextAttemptId := s.nextAttemptId + 1 } := by rw [he]
  have hfc : (connectToDatabaseEntry uri s).2.conn = none := by
    rw [h2]; simp [hc]
  have hfp : (connectToDatabaseEntry uri s).2.promise = some s.nextAttemptId := by
    rw [h2]
  have hfn : (connectToDatabaseEntry uri s).2.connectCalls = s.connectCalls + 1 := by
    rw [h2]
  obtain ⟨ha, _, _, hd⟩ :=
    runEntries_pending uri s.nextAttemptId m (connectToDatabaseEntry uri s).2
      hu hfc hfp
  refine ⟨?_, ?_, ?_⟩
  · show (runEntries uri m (connectToDatabaseEntry uri s).2).2.connectCalls
      = s.connectCalls + 1
    rw [hd, hfn]
  · intro r hr
    simp only [runEntries] at hr
    rcases List.mem_cons.mp hr with h | h
    · rw [h, h1]
    · exact ha r h
  · intro out t1 t2
    cases out <;> rfl

theorem single_inflight_attempt_witness :
    uriPresent (some "mongodb://localhost/db") = true ∧ 2 ≤ 2 ∧
    ((runEntries (some "mongodb://localhost/db") 2 initialCache).2.connectCalls
       = initialCache.connectCalls + 1 ∧
     (∀ r ∈ (runEntries (some "mongodb://localhost/db") 2 initialCache).1,
        r = EntryResult.awaiting initialCache.nextAttemptId) ∧
     (∀ out t1 t2, (connectToDatabaseResume out t1).1 =
        (connectToDatabaseResume out t2).1)) :=
  ⟨by decide, by decide,
   single_inflight_attempt (some "mongodb://localhost/db") initialCache 2
     (by decide) rfl rfl (by decide)⟩

/-- `setupConnectionListeners` preserves the book-keeping relation between
the guard flag and the number of attachments. -/
theorem setup_listener_inv (s : MongooseCache)
    (h : s.listenerRegs = if s.listenersSet then 1 else 0) :
    (setupConnectionListeners s).listenerRegs =
      if (setupConnectionListeners s).listenersSet then 1 else 0 := by
  unfold setupConnectionListeners
  split
  · rename_i hs
    rw [h, if_pos hs]
  · rename_i hns
    have hf : s.listenersSet = false := by
      cases hb : s.listenersSet
      · rfl
      · exact absurd hb hns
    rw [hf] at h
    simp at h
    simp [h]

/-- Every atomic step preserves the relation between the guard flag and the
number of listener attachments. -/
theorem step_listener_inv (uri : Option String) (s : MongooseCache) (op : Op)
    (h : s.listenerRegs = if s.listenersSet then 1 else 0) :
    (step uri s op).listenerRegs =
      if (step uri s op).listenersSet then 1 else 0 := by
  cases op with
  | entry =>
    show (connectToDatabaseEntry uri s).2.listenerRegs =
      if (connectToDatabaseEntry uri s).2.listenersSet then 1 else 0
    unfold connectToDatabaseEntry
    split
    · exact h
    · split
      · exact h
      · split
        · exact setup_listener_inv s h
        · exact setup_listener_inv s h
  | resume out =>
    cases out
    · exact h
    · exact h
  | disconnect =>
    show (disconnectFromDatabase s).listenerRegs =
      if (disconnectFromDatabase s).listenersSet then 1 else 0
    unfold disconnectFromDatabase
    split
    · exact h
    · exact h

/-- The flag/attachment relation holds after any sequence of steps started in
a state satisfying it. -/
theorem run_listener_inv (uri : Option String) :
    ∀ (ops : List Op) (s : MongooseCache),
      s.listenerRegs = (if s.listenersSet then 1 else 0) →
      (run uri ops s).listenerRegs =
        if (run uri ops s).listenersSet then 1 else 0 := by
  intro ops
  induction ops with
  | nil =>
    intro s h
    exact h
  | cons op ops ih =>
    intro s h
    exact ih (step uri s op) (step_listener_inv uri s op h)

/-- No atomic step ever clears the one-time guard flag. -/
theorem step_keeps_listenersSet (uri : Option String) (s : MongooseCache)
    (op : Op) (h : s.listenersSet = true) :
    (step uri s op).listenersSet = true := by
  cases op with
  | entry =>
    show (connectToDatabaseEntry uri s).2.listenersSet = true
    unfold connectToDatabaseEntry
    split
    · exact h
    · split
      · exact h
      · split
        · exact setup_listenersSet s
        · exact setup_listenersSet s
  | resume out =>
    cases out
    · exact h
    · exact h
  | disconnect =>
    show (disconnectFromDatabase s).listenersSet = true
    unfold disconnectFromDatabase
    split
    · exact h
    · exact h

/-- The guard flag stays set across any sequence of steps. -/
theorem run_keeps_listenersSet (uri : Option String) :
    ∀ (ops : List Op) (s : MongooseCache), s.listenersSet = true →
      (run uri ops s).listenersSet = true := by
  intro ops
  induction ops with
  | nil =>
    intro s h
    exact h
  | cons op ops ih =>
    intro s h
    exact ih (step uri s op) (step_keeps_listenersSet uri s op h)

/-- An entry step taken with a truthy URI and no cached handle leaves the
guard flag set. -/
theorem entry_sets_listeners (uri : Option String) (s : MongooseCache)
    (hu : uriPresent uri = true) (hc : s.conn = none) :
    (connectToDatabaseEntry uri s).2.listenersSet = true := by
  rcases hp : s.promise with _ | a
  · rw [entry_fresh uri s hu hc hp]
    exact setup_listenersSet s
  · rw [entry_pending uri s a hu hc hp]
    exact setup_listenersSet s

/-- Running a concatenation of step sequences runs them in order. -/
theorem run_append (uri : Option String) :
    ∀ (l1 l2 : List Op) (s : MongooseCache),
      run uri (l1 ++ l2) s = run uri l2 (run uri l1 s) := by
  intro l1
  induction l1 with
  | nil =>
    intro l2 s
    rfl
  | cons op l1 ih =>
    intro l2 s
    exact ih l2 (step uri s op)

/-- C8: starting from the module-load state, after any sequence of
`connectToDatabase` entries, resumes and disconnects the listener/shutdown
block has been attached at most once; and any sequence containing one entry
taken with a truthy URI and no cached handle ends with it attached exactly
once. -/
theorem listeners_attached_once (uri : Option String) (ops1 ops2 : List Op)
    (hu : uriPresent uri = true)
    (hc : (run uri ops1 initialCache).conn = none) :
    (∀ ops : List Op, (run uri ops initialCache).listenerRegs ≤ 1) ∧
    (run uri (ops1 ++ Op.entry :: ops2) initialCache).listenerRegs = 1 := by
  constructor
  · intro ops
    rw [run_listener_inv uri ops initialCache rfl]
    split
    · omega
    · omega
  · have hinv2 :=
      run_listener_inv uri (ops1 ++ Op.entry :: ops2) initialCache rfl
    have hset :
        (run uri (ops1 ++ Op.entry :: ops2) initialCache).listenersSet = true := by
      rw [run_append uri ops1 (Op.entry :: ops2) initialCache]
      exact run_keeps_listenersSet uri ops2 _
        (entry_sets_listeners uri (run uri ops1 initialCache) hu hc)
    rw [hinv2, hset]
    simp

theorem listeners_attached_once_witness :
    uriPresent (some "mongodb://localhost/db") = true ∧
    (run (some "mongodb://localhost/db") [] initialCache).conn = none ∧
    ((∀ ops : List Op,
        (run (some "mongodb://localhost/db") ops initialCache).listenerRegs ≤ 1) ∧
     (run (some "mongodb://localhost/db") ([] ++ Op.entry :: [])
        initialCache).listenerRegs = 1) :=
  ⟨by decide, rfl,
   listeners_attached_once (some "mongodb://localhost/db") [] [] (by decide) rfl⟩
